import Mathlib

/-!
Verification of the normalization and export layer of the financial-extractor
repository: shallow embedding of `_to_decimal` and `_parse_iso_or_quarter`
(src/models.py), the pydantic record validation of `FundExposure`
(src/models.py), the per-document batch processing of `field_matching`
(src/agent_field_matching.py), and `flatten_record` / `COLUMNS` /
`COLUMN_GROUPS` (src/excel_exporting.py).
-/

namespace FinExtract

/-! ## Character-level helpers (Python string primitives, ASCII fragment) -/

/-- ASCII whitespace recognized by Python `str.strip` and by the regex
class backslash-s (the source data is ASCII; unicode whitespace is not
modelled). -/
def isSpaceCh (c : Char) : Bool :=
  c = ' ' || c = '\t' || c = '\n' || c = '\r' || c = '\x0b' || c = '\x0c'

/-- Python `str.lower` on one ASCII character. -/
def lowCh (c : Char) : Char := Char.toLower c

/-- Python `str.upper` on one ASCII character. -/
def upCh (c : Char) : Char := Char.toUpper c

/-- Numeric value of a decimal digit character. -/
def dv (c : Char) : Nat := c.toNat - 48

/-- Python `str.lstrip()`. -/
def lstrip (l : List Char) : List Char := l.dropWhile isSpaceCh

/-- Python `str.rstrip()`. -/
def rstrip (l : List Char) : List Char := (l.reverse.dropWhile isSpaceCh).reverse

/-- Python `str.strip()`. -/
def pyStripL (l : List Char) : List Char := rstrip (lstrip l)

/-- Python `str.lower` on a character list. -/
def lowerL (l : List Char) : List Char := l.map lowCh

/-! ## Python `decimal.Decimal` values and the numeric-string grammar

`Decimal` values are modelled by their numeric content: finite values as
rationals, plus quiet/signaling NaN and signed infinity.  Exponent and
sign-of-zero bookkeeping of `Decimal` (1.0 vs 1.00, -0) is numerically
irrelevant here because the specification compares values numerically,
which is what Python `==` on `Decimal` does.  Context-precision rounding
(28 significant digits) of arithmetic results is not modelled: the
quotients and products arising in `_to_decimal` are taken exactly. -/

inductive PyDec where
  | num (q : ℚ)
  | nan (signaling : Bool)
  | inf (neg : Bool)
deriving DecidableEq, Repr

def allDigits (l : List Char) : Bool := l.all Char.isDigit

def digitsVal (l : List Char) : Nat := l.foldl (fun a c => a * 10 + dv c) 0

/-- Split a lowercased numeric string at the first `e` (exponent marker). -/
def splitE : List Char → List Char × Option (List Char)
  | [] => ([], none)
  | c :: cs =>
    if c = 'e' then ([], some cs)
    else
      let p := splitE cs
      (c :: p.1, p.2)

/-- Split a mantissa at its decimal point; `none` if more than one point. -/
def splitDot : List Char → Option (List Char × List Char)
  | [] => some ([], [])
  | '.' :: cs => if cs.contains '.' then none else some ([], cs)
  | c :: cs =>
    match splitDot cs with
    | some p => some (c :: p.1, p.2)
    | none => none

/-- Parse `digits [. digits]` with at least one digit: returns the digit
string value and the number of fractional digits. -/
def parseMant (l : List Char) : Option (Nat × Nat) :=
  match splitDot l with
  | none => none
  | some p =>
    if allDigits p.1 && allDigits p.2 && (!p.1.isEmpty || !p.2.isEmpty) then
      some (digitsVal (p.1 ++ p.2), p.2.length)
    else none

/-- Parse an exponent part `[sign] digits` (nonempty digits). -/
def parseExp (l : List Char) : Option Int :=
  match l with
  | '+' :: ds => if allDigits ds && !ds.isEmpty then some (digitsVal ds) else none
  | '-' :: ds => if allDigits ds && !ds.isEmpty then some (-(digitsVal ds : Int)) else none
  | ds => if allDigits ds && !ds.isEmpty then some (digitsVal ds) else none

/-- Ten to a natural power, as a rational. -/
def pow10N : Nat → ℚ
  | 0 => 1
  | n + 1 => pow10N n * 10

/-- Ten to an integer power, as a rational. -/
def pow10Z : Int → ℚ
  | .ofNat n => pow10N n
  | .negSucc n => 1 / pow10N (n + 1)

/-- Parse the numeric value `decimal-part [exponent-part]` (lowercased). -/
def parseNumBody (neg : Bool) (l : List Char) : Option PyDec :=
  let p := splitE l
  match parseMant p.1 with
  | none => none
  | some mv =>
    match p.2 with
    | none =>
      some (.num ((if neg then (-1 : ℚ) else 1) * (mv.1 : ℚ) * pow10Z (-(mv.2 : Int))))
    | some el =>
      match parseExp el with
      | none => none
      | some ev =>
        some (.num ((if neg then (-1 : ℚ) else 1) * (mv.1 : ℚ) * pow10Z (ev - (mv.2 : Int))))

/-- Parse the body after the optional sign: infinity, NaN (with optional
digit payload), signaling NaN, or a numeric value. -/
def parseBody (neg : Bool) (l : List Char) : Option PyDec :=
  if l = ['i', 'n', 'f'] || l = ['i', 'n', 'f', 'i', 'n', 'i', 't', 'y'] then
    some (.inf neg)
  else
    match l with
    | 's' :: 'n' :: 'a' :: 'n' :: ds => if allDigits ds then some (.nan true) else none
    | 'n' :: 'a' :: 'n' :: ds => if allDigits ds then some (.nan false) else none
    | _ => parseNumBody neg l

/-- The string form accepted by the `decimal.Decimal` constructor: strip
surrounding whitespace, remove underscores throughout, parse
case-insensitively with optional sign; `none` models the raised
`InvalidOperation`. -/
def decParseL (l : List Char) : Option PyDec :=
  let cs := ((pyStripL l).filter (fun c => c != '_')).map lowCh
  match cs with
  | '+' :: r => parseBody false r
  | '-' :: r => parseBody true r
  | r => parseBody false r

/-! ## Decimal arithmetic used by `_to_decimal`

Only the operations the source performs: division by 100/10000 and
multiplication by a magnitude, under the default context
(`prec = 28`, `Emax = 999999`, `Emin = -999999`, `ROUND_HALF_EVEN`, traps
`InvalidOperation`, `DivisionByZero`, `Overflow`).  A finite result is the
exact rational value rounded to 28 significant digits half-even (at
`Etiny = Emin - prec + 1` for subnormal results, `Underflow` being
untrapped); a rounded result whose adjusted exponent exceeds `Emax`
raises `Overflow`.  An operation on a signaling NaN, infinity/infinity, a
zero divisor, and zero times infinity raise; quiet NaN propagates. -/

/-- Number of decimal digits of a natural number (0 for 0); the first
argument is recursion fuel, at least the digit count whenever it is at
least `n`. -/
def ndigitsAux : Nat → Nat → Nat
  | 0, _ => 0
  | fuel + 1, n => if n = 0 then 0 else 1 + ndigitsAux fuel (n / 10)

def ndigits (n : Nat) : Nat := ndigitsAux n n

/-- Floor of a rational (the denominator is positive, so floor division
of the numerator). -/
def ratFloor (q : ℚ) : Int := Int.fdiv q.num (q.den : Int)

/-- The adjusted exponent of a nonzero rational: the unique `e` with
`10 ^ e ≤ |q| < 10 ^ (e + 1)`. -/
def adjExp (q : ℚ) : Int :=
  let a := q.num.natAbs
  let b := q.den
  let da := ndigits a
  let db := ndigits b
  if b * 10 ^ da ≤ a * 10 ^ db then (da : Int) - db else (da : Int) - db - 1

/-- Nearest integer, ties to even (`ROUND_HALF_EVEN`). -/
def roundHalfEven (x : ℚ) : Int :=
  let n := ratFloor x
  let fr := x - (n : ℚ)
  if Rat.blt fr (1 / 2) then n
  else if Rat.blt (1 / 2) fr then n + 1
  else if n % 2 = 0 then n else n + 1

/-- Round a rational to an integral multiple of `10 ^ p`, half-even. -/
def roundAtPos (q : ℚ) (p : Int) : ℚ :=
  (roundHalfEven (q * pow10Z (-p)) : ℚ) * pow10Z p

/-- Rounding of an exact operation result under the default context:
round to 28 significant digits (never below `Etiny = -1000026`), then
raise `Overflow` if the adjusted exponent of the rounded result exceeds
`Emax = 999999`. -/
def ctxRound (q : ℚ) : Except Unit ℚ :=
  if q = 0 then .ok 0
  else
    let r := roundAtPos q (max (adjExp q - 27) (-1000026))
    if r = 0 then .ok 0
    else if adjExp r > 999999 then .error ()
    else .ok r

def pdDiv : PyDec → PyDec → Except Unit PyDec
  | .nan true, _ => .error ()
  | _, .nan true => .error ()
  | .nan false, _ => .ok (.nan false)
  | _, .nan false => .ok (.nan false)
  | .inf _, .inf _ => .error ()
  | .inf s, .num q => .ok (.inf (xor s (decide (q < 0))))
  | .num _, .inf _ => .ok (.num 0)
  | .num q, .num r =>
    if r = 0 then .error ()
    else
      match ctxRound (q / r) with
      | .error _ => .error ()
      | .ok v => .ok (.num v)

def pdMul : PyDec → PyDec → Except Unit PyDec
  | .nan true, _ => .error ()
  | _, .nan true => .error ()
  | .nan false, _ => .ok (.nan false)
  | _, .nan false => .ok (.nan false)
  | .inf s, .inf t => .ok (.inf (xor s t))
  | .inf s, .num q => if q = 0 then .error () else .ok (.inf (xor s (decide (q < 0))))
  | .num q, .inf s => if q = 0 then .error () else .ok (.inf (xor s (decide (q < 0))))
  | .num q, .num r =>
    match ctxRound (q * r) with
    | .error _ => .error ()
    | .ok v => .ok (.num v)

/-! ## `_to_decimal` (src/models.py lines 93-123) -/

/-- Raw scalar inputs reaching the coercion helpers: Python `None`, a
number (`int`/`float`/`Decimal`, carried by its numeric value), or a
string. -/
inductive PyIn where
  | vNone
  | vNum (q : ℚ)
  | vStr (s : String)

/-- `s.endswith("%")`. -/
def endsPct (l : List Char) : Bool := l.getLast? == some '%'

/-- `s.lower().endswith("bp")`. -/
def endsBpCI (l : List Char) : Bool :=
  match (lowerL l).reverse with
  | 'p' :: 'b' :: _ => true
  | _ => false

/-- `s.lower().endswith("x")`. -/
def endsXCI (l : List Char) : Bool :=
  match (lowerL l).reverse with
  | 'x' :: _ => true
  | _ => false

/-- `.replace(",", "")`. -/
def stripCommas (l : List Char) : List Char := l.filter (fun c => c != ',')

/-- `.replace(",", "").replace("$", "").replace("€", "").replace("£", "")`. -/
def stripCur (l : List Char) : List Char :=
  l.filter (fun c => c != ',' && c != '$' && c != '€' && c != '£')

/-- The `_KMB` magnitude table keyed by the uppercased final character. -/
def kmbSuffix (l : List Char) : Option ℚ :=
  match l.getLast? with
  | some c =>
    if upCh c = 'K' then some 1000
    else if upCh c = 'M' then some 1000000
    else if upCh c = 'B' then some 1000000000
    else none
  | none => none

/-- Body of `_to_decimal` on the stripped string `t = str(v).strip()`.
`Except.error` models an uncaught exception (`InvalidOperation` from the
`Decimal` constructor on the percent, basis-point, multiple and magnitude
paths, or from arithmetic on a signaling NaN); only the plain-number path
catches `InvalidOperation` and returns `None`. -/
def toDecCore (t : List Char) : Except Unit (Option PyDec) :=
  if endsPct t then
    match decParseL (stripCommas (pyStripL t.dropLast)) with
    | none => .error ()
    | some d =>
      match pdDiv d (.num 100) with
      | .error _ => .error ()
      | .ok r => .ok (some r)
  else if endsBpCI t then
    match decParseL (stripCommas (pyStripL t.dropLast.dropLast)) with
    | none => .error ()
    | some d =>
      match pdDiv d (.num 10000) with
      | .error _ => .error ()
      | .ok r => .ok (some r)
  else if endsXCI t then
    match decParseL (stripCommas (pyStripL t.dropLast)) with
    | none => .error ()
    | some d => .ok (some d)
  else
    match kmbSuffix (stripCur t) with
    | some mult =>
      match decParseL (stripCur t).dropLast with
      | none => .error ()
      | some d =>
        match pdMul d (.num mult) with
        | .error _ => .error ()
        | .ok r => .ok (some r)
    | none => .ok (decParseL (stripCur t))

/-- `_to_decimal` (src/models.py).  `None` and the empty string map to
`None`; a number is passed through `Decimal(str(v))`; a string is
stripped and dispatched on its suffix. -/
def toDec : PyIn → Except Unit (Option PyDec)
  | .vNone => .ok none
  | .vNum q => .ok (some (.num q))
  | .vStr s => if s = "" then .ok none else toDecCore (pyStripL s.data)

/-! ## `_parse_iso_or_quarter` (src/models.py lines 125-154)

The six `strptime` formats are modelled at the fidelity of the CPython
`_strptime` regexes: `%Y` is exactly four digits, `%m` is `1[0-2]|0[1-9]|[1-9]`,
`%d` is `3[01]|[12][0-9]|0[1-9]|[1-9]`, `%B` is a full English month name
(case-insensitive), literal whitespace in a format matches one or more
whitespace characters, the whole input must be consumed, and a regex match
naming an impossible calendar date raises `ValueError` (caught, so the
next format is tried). -/

structure PyDate where
  year : Nat
  month : Nat
  day : Nat
deriving DecidableEq, Repr

def isLeap (y : Nat) : Bool := (y % 4 == 0) && ((y % 100 != 0) || (y % 400 == 0))

/-- `calendar.monthrange(y, m)[1]` (also the day-validity bound used by
`datetime`). -/
def daysInMonth (y m : Nat) : Nat :=
  if m = 2 then (if isLeap y then 29 else 28)
  else if m = 4 || m = 6 || m = 9 || m = 11 then 30
  else 31

/-- `datetime.date(y, m, d)` for a regex-matched month and day: raises
(`none`) when the year is 0 or the day exceeds the month length. -/
def mkValidDate (y m d : Nat) : Option PyDate :=
  if 1 ≤ y ∧ d ≤ daysInMonth y m then some ⟨y, m, d⟩ else none

/-- Regex `\s+`: at least one whitespace character, consumed greedily. -/
def wsPlus : List Char → Option (List Char)
  | c :: cs => if isSpaceCh c then some (cs.dropWhile isSpaceCh) else none
  | [] => none

/-- `%Y`: exactly four digits. -/
def year4 : List Char → Option (Nat × List Char)
  | a :: b :: c :: d :: rest =>
    if a.isDigit && b.isDigit && c.isDigit && d.isDigit then
      some (digitsVal [a, b, c, d], rest)
    else none
  | _ => none

/-- `%d` alternatives `3[01] | [12][0-9] | 0[1-9] | [1-9]`, in regex
order, each with the remaining input. -/
def dayCands : List Char → List (Nat × List Char)
  | c1 :: c2 :: rest =>
    (if c1 = '3' && (c2 = '0' || c2 = '1') then [(30 + dv c2, rest)] else [])
    ++ (if (c1 = '1' || c1 = '2') && c2.isDigit then [(dv c1 * 10 + dv c2, rest)] else [])
    ++ (if c1 = '0' && c2.isDigit && c2 != '0' then [(dv c2, rest)] else [])
    ++ (if c1.isDigit && c1 != '0' then [(dv c1, c2 :: rest)] else [])
  | [c1] => if c1.isDigit && c1 != '0' then [(dv c1, [])] else []
  | [] => []

/-- `%m` alternatives `1[0-2] | 0[1-9] | [1-9]`, in regex order. -/
def monthCands : List Char → List (Nat × List Char)
  | c1 :: c2 :: rest =>
    (if c1 = '1' && (c2 = '0' || c2 = '1' || c2 = '2') then [(10 + dv c2, rest)] else [])
    ++ (if c1 = '0' && c2.isDigit && c2 != '0' then [(dv c2, rest)] else [])
    ++ (if c1.isDigit && c1 != '0' then [(dv c1, c2 :: rest)] else [])
  | [c1] => if c1.isDigit && c1 != '0' then [(dv c1, [])] else []
  | [] => []

/-- First candidate continuation that succeeds (regex alternation with
backtracking). -/
def pickFirst : List α → (α → Option β) → Option β
  | [], _ => none
  | x :: xs, f =>
    match f x with
    | some b => some b
    | none => pickFirst xs f

/-- Case-insensitive literal match of a lowercase pattern against the
input head, returning the rest. -/
def matchCI : List Char → List Char → Option (List Char)
  | [], l => some l
  | _ :: _, [] => none
  | p :: ps, c :: cs => if lowCh c = p then matchCI ps cs else none

def monthNamesL : List (Nat × List Char) :=
  [(1, ['j','a','n','u','a','r','y']), (2, ['f','e','b','r','u','a','r','y']),
   (3, ['m','a','r','c','h']), (4, ['a','p','r','i','l']), (5, ['m','a','y']),
   (6, ['j','u','n','e']), (7, ['j','u','l','y']), (8, ['a','u','g','u','s','t']),
   (9, ['s','e','p','t','e','m','b','e','r']), (10, ['o','c','t','o','b','e','r']),
   (11, ['n','o','v','e','m','b','e','r']), (12, ['d','e','c','e','m','b','e','r'])]

/-- `%B`: a full English month name, case-insensitive. -/
def monthCI (l : List Char) : Option (Nat × List Char) :=
  pickFirst monthNamesL (fun p =>
    match matchCI p.2 l with
    | some r => some (p.1, r)
    | none => none)

/-- Format `%Y-%m-%d`. -/
def fmtYmd (l : List Char) : Option PyDate :=
  match year4 l with
  | some (y, r1) =>
    match r1 with
    | '-' :: r2 =>
      pickFirst (monthCands r2) (fun mp =>
        match mp.2 with
        | '-' :: r4 =>
          pickFirst (dayCands r4) (fun dp =>
            if dp.2 = [] then mkValidDate y mp.1 dp.1 else none)
        | _ => none)
    | _ => none
  | none => none

/-- Format `%Y-%m`, resolved by the source to the last day of the month. -/
def fmtYm (l : List Char) : Option PyDate :=
  match year4 l with
  | some (y, '-' :: r2) =>
    pickFirst (monthCands r2) (fun mp =>
      if mp.2 = [] then (if 1 ≤ y then some ⟨y, mp.1, daysInMonth y mp.1⟩ else none)
      else none)
  | _ => none

/-- Format `%d/%m/%Y`. -/
def fmtDmy (l : List Char) : Option PyDate :=
  pickFirst (dayCands l) (fun dp =>
    match dp.2 with
    | '/' :: r2 =>
      pickFirst (monthCands r2) (fun mp =>
        match mp.2 with
        | '/' :: r4 =>
          match year4 r4 with
          | some (y, []) => mkValidDate y mp.1 dp.1
          | _ => none
        | _ => none)
    | _ => none)

/-- Format `%m/%d/%Y`. -/
def fmtMdy (l : List Char) : Option PyDate :=
  pickFirst (monthCands l) (fun mp =>
    match mp.2 with
    | '/' :: r2 =>
      pickFirst (dayCands r2) (fun dp =>
        match dp.2 with
        | '/' :: r4 =>
          match year4 r4 with
          | some (y, []) => mkValidDate y mp.1 dp.1
          | _ => none
        | _ => none)
    | _ => none)

/-- Format `%B %d, %Y`. -/
def fmtBdY (l : List Char) : Option PyDate :=
  match monthCI l with
  | some (m, r1) =>
    match wsPlus r1 with
    | some r2 =>
      pickFirst (dayCands r2) (fun dp =>
        match dp.2 with
        | ',' :: r4 =>
          match wsPlus r4 with
          | some r5 =>
            match year4 r5 with
            | some (y, []) => mkValidDate y m dp.1
            | _ => none
          | none => none
        | _ => none)
    | none => none
  | none => none

/-- Format `%d %B %Y`. -/
def fmtDBY (l : List Char) : Option PyDate :=
  pickFirst (dayCands l) (fun dp =>
    match wsPlus dp.2 with
    | some r2 =>
      match monthCI r2 with
      | some (m, r3) =>
        match wsPlus r3 with
        | some r4 =>
          match year4 r4 with
          | some (y, []) => mkValidDate y m dp.1
          | _ => none
        | none => none
      | none => none
    | none => none)

/-- The `fmts` battery, tried in source order; first success wins. -/
def battery (l : List Char) : Option PyDate :=
  fmtYmd l <|> fmtYm l <|> fmtDmy l <|> fmtMdy l <|> fmtBdY l <|> fmtDBY l

/-- The quarter regex `Q([1-4])\s+(\d{4})` applied with `re.match`
(anchored at the start, case-insensitive, trailing input allowed):
returns the quarter and year. -/
def quarterHead : List Char → Option (Nat × Nat)
  | q :: c :: rest =>
    if (q = 'Q' || q = 'q') && (c = '1' || c = '2' || c = '3' || c = '4') then
      match wsPlus rest with
      | some r2 =>
        match r2 with
        | a :: b :: c2 :: d :: _ =>
          if a.isDigit && b.isDigit && c2.isDigit && d.isDigit then
            some (dv c, digitsVal [a, b, c2, d])
          else none
        | _ => none
      | none => none
    else none
  | _ => none

/-- Last day of the quarter (month map `{1:3, 2:6, 3:9, 4:12}` and
`calendar.monthrange`). -/
def quarterEnd (q y : Nat) : PyDate := ⟨y, 3 * q, daysInMonth y (3 * q)⟩

def isWordCh (c : Char) : Bool := c.isAlphanum || c = '_'

def headNonWord : List Char → Bool
  | [] => true
  | c :: _ => !isWordCh c

/-- `re.sub(r"(?i)\bas of\b", "", s)`: remove every non-overlapping,
word-bounded, case-insensitive occurrence of `as of`, scanning left to
right; `pw` records whether the character before the current position is
a word character (for the left boundary). -/
def asOfSub (pw : Bool) : List Char → List Char
  | c1 :: c2 :: c3 :: c4 :: c5 :: rest =>
    if !pw && lowCh c1 == 'a' && lowCh c2 == 's' && c3 == ' ' && lowCh c4 == 'o'
        && lowCh c5 == 'f' && headNonWord rest then
      asOfSub true rest
    else
      c1 :: asOfSub (isWordCh c1) (c2 :: c3 :: c4 :: c5 :: rest)
  | c :: cs => c :: asOfSub (isWordCh c) cs
  | [] => []

/-- Body of `_parse_iso_or_quarter` on a nonempty input string: strip,
try the quarter regex (its `date(y, month, last_day)` raises uncaught for
year 0000), then remove `as of`, re-strip, and try the format battery
(whose failures are all caught, yielding `None`). -/
def pDateCore (l : List Char) : Except Unit (Option PyDate) :=
  match quarterHead (pyStripL l) with
  | some qy => if qy.2 = 0 then .error () else .ok (some (quarterEnd qy.1 qy.2))
  | none => .ok (battery (pyStripL (asOfSub false (pyStripL l))))

/-- `_parse_iso_or_quarter` (src/models.py).  `None` and `""` map to
`None`; `str(v)` of a number contains only digits, sign, point and
exponent characters and so matches neither the quarter regex nor any
battery format. -/
def pDate : PyIn → Except Unit (Option PyDate)
  | .vNone => .ok none
  | .vNum _ => .ok none
  | .vStr s => if s = "" then .ok none else pDateCore s.data

/-! ## Enumerations (src/models.py lines 12-88)

`ConfigDict(use_enum_values=True)` makes a validated enum field store the
canonical display string, so each enumeration is embedded as its list of
member values; pydantic resolves a raw string by exact, case-sensitive
equality with a member value. -/

def instrumentStrategyValues : List String := ["Equity", "Corporate Debt"]

def hedgingStrategyValues : List String := ["Yes", "No", "Expected"]

def underlyingFundStrategyValues : List String :=
  ["V.C.", "Growth", "Buyout", "L. Buyout", "Asia", "Diretto", "Senior",
   "Uni-Tranche", "Mezzanine", "Junior", "Preferred Equity", "ReFin", "Equity",
   "PIK", "NAV Lending", "CLO", "Core", "Core+", "Value Added", "Opportunistic",
   "RE Credit", "Other"]

def geographyMacroareaValues : List String :=
  ["Europe", "UK", "N. America", "LatAm", "China", "SEA & Oceania", "Other"]

def macroSectorValues : List String :=
  ["Education", "Financial Services", "Health & Pharma",
   "Industrial & Business Services", "Consumer & Retail", "Travel & Hospitality",
   "Software & Technol.", "Real estate", "Other"]

def investmentTypeValues : List String := ["Primary", "Secondary", "Co-Inv"]

def realizationStatusValues : List String := ["Realized", "Unrealized"]

def realEstateSegmentValues : List String :=
  ["Residential", "Office", "Retail", "Industrial & Logistics", "Hotel",
   "Mixed Use", "Other"]

/-! ## Field validation (pydantic v2 semantics for the declared fields)

A raw field value is absent (`Option.none`, the alias key missing from the
candidate mapping), JSON null, a string, or a number.  Validation of one
field either produces the canonical value or fails; pydantic collects the
failed fields and raises one `ValidationError` for the record, modelled as
`Except.error ()` (an uncaught exception escaping a before-validator, such
as `InvalidOperation`, likewise aborts the record and is merged into the
same error value). -/

inductive RawVal where
  | null
  | str (s : String)
  | num (q : ℚ)

def rawToIn : RawVal → PyIn
  | .null => .vNone
  | .str s => .vStr s
  | .num q => .vNum q

/-- A required `str` field: present strings pass, anything else fails. -/
def reqStr : Option RawVal → Except Unit String
  | some (.str s) => .ok s
  | _ => .error ()

/-- An `Optional[str]` field: absent or null is `None`, a number fails. -/
def optStr : Option RawVal → Except Unit (Option String)
  | none => .ok none
  | some .null => .ok none
  | some (.str s) => .ok (some s)
  | some (.num _) => .error ()

/-- A required `date` field with the `_parse_iso_or_quarter` before-validator:
absence, an unparseable value (validator returns `None`) and a validator
exception all fail. -/
def reqDate : Option RawVal → Except Unit PyDate
  | none => .error ()
  | some v =>
    match pDate (rawToIn v) with
    | .error _ => .error ()
    | .ok none => .error ()
    | .ok (some d) => .ok d

/-- An `Optional[date]` field with the `_parse_iso_or_quarter`
before-validator: an unparseable value degrades to `None`. -/
def optDate : Option RawVal → Except Unit (Option PyDate)
  | none => .ok none
  | some v =>
    match pDate (rawToIn v) with
    | .error _ => .error ()
    | .ok x => .ok x

/-- An `Optional[Enum]` field: absent or null is `None`; a string must equal
a member value exactly (case-sensitive), otherwise validation fails. -/
def optEnum (vals : List String) : Option RawVal → Except Unit (Option String)
  | none => .ok none
  | some .null => .ok none
  | some (.str s) => if s ∈ vals then .ok (some s) else .error ()
  | some (.num _) => .error ()

/-- An `Optional[Decimal]` field with the `_to_decimal` before-validator:
a failed plain-number parse degrades to `None`, while an exception raised
inside `_to_decimal` fails the record. -/
def optDec : Option RawVal → Except Unit (Option PyDec)
  | none => .ok none
  | some v =>
    match toDec (rawToIn v) with
    | .error _ => .error ()
    | .ok x => .ok x

/-! ## `AssetSnapshot` (src/models.py lines 159-230) -/

structure RawSnapshot where
  possessoEntry : Option RawVal := none
  evEntry : Option RawVal := none
  ebitdaEntry : Option RawVal := none
  marginEntry : Option RawVal := none
  netRevenueEntry : Option RawVal := none
  netDebtEntry : Option RawVal := none
  fcfEntry : Option RawVal := none
  netResultEntry : Option RawVal := none
  evEbitdaEntry : Option RawVal := none
  evRevenueEntry : Option RawVal := none
  netDebtEbitdaEntry : Option RawVal := none
  economicsReportingDate : Option RawVal := none
  possesso : Option RawVal := none
  ev : Option RawVal := none
  ltmEbitda : Option RawVal := none
  ltmMargin : Option RawVal := none
  ltmNetRevenues : Option RawVal := none
  ltmNetEquity : Option RawVal := none
  ltmNetDebt : Option RawVal := none
  ltmFcf : Option RawVal := none
  ltmGrossProfit : Option RawVal := none
  ltmNetResult : Option RawVal := none
  targetCompanyDeRatio : Option RawVal := none
  discountRate : Option RawVal := none
  beta : Option RawVal := none
  costOfEquity : Option RawVal := none
  costOfDebt : Option RawVal := none
  evEbitda : Option RawVal := none
  evRevenue : Option RawVal := none
  netDebtEbitda : Option RawVal := none
  maturityDate : Option RawVal := none
  price : Option RawVal := none
  coupon : Option RawVal := none
  spread : Option RawVal := none
  watchlistPosition : Option RawVal := none
  ltv : Option RawVal := none
  leverageEntry : Option RawVal := none
  leverage : Option RawVal := none
  duration : Option RawVal := none
  creditSensitivity : Option RawVal := none
  riskFreeRateApplied : Option RawVal := none
  creditRating : Option RawVal := none
  creditRatingSource : Option RawVal := none
  creditSpreadPct : Option RawVal := none
  countryPremiumPct : Option RawVal := none
  liquidityPremiumPct : Option RawVal := none
  otherPremiaPct : Option RawVal := none
  totalDiscountRateAppliedPct : Option RawVal := none
  area : Option RawVal := none
  realEstateSegment : Option RawVal := none

structure AssetSnapshot where
  possessoEntry : Option PyDec
  evEntry : Option PyDec
  ebitdaEntry : Option PyDec
  marginEntry : Option PyDec
  netRevenueEntry : Option PyDec
  netDebtEntry : Option PyDec
  fcfEntry : Option PyDec
  netResultEntry : Option PyDec
  evEbitdaEntry : Option PyDec
  evRevenueEntry : Option PyDec
  netDebtEbitdaEntry : Option PyDec
  economicsReportingDate : Option PyDate
  possesso : Option PyDec
  ev : Option PyDec
  ltmEbitda : Option PyDec
  ltmMargin : Option PyDec
  ltmNetRevenues : Option PyDec
  ltmNetEquity : Option PyDec
  ltmNetDebt : Option PyDec
  ltmFcf : Option PyDec
  ltmGrossProfit : Option PyDec
  ltmNetResult : Option PyDec
  targetCompanyDeRatio : Option PyDec
  discountRate : Option PyDec
  beta : Option PyDec
  costOfEquity : Option PyDec
  costOfDebt : Option PyDec
  evEbitda : Option PyDec
  evRevenue : Option PyDec
  netDebtEbitda : Option PyDec
  maturityDate : Option PyDate
  price : Option PyDec
  coupon : Option PyDec
  spread : Option PyDec
  watchlistPosition : Option String
  ltv : Option PyDec
  leverageEntry : Option PyDec
  leverage : Option PyDec
  duration : Option PyDec
  creditSensitivity : Option PyDec
  riskFreeRateApplied : Option PyDec
  creditRating : Option String
  creditRatingSource : Option String
  creditSpreadPct : Option PyDec
  countryPremiumPct : Option PyDec
  liquidityPremiumPct : Option PyDec
  otherPremiaPct : Option PyDec
  totalDiscountRateAppliedPct : Option PyDec
  area : Option String
  realEstateSegment : Option String

/-- Validation of one `AssetSnapshot`: the 43 fields listed in
`_coerce_decimals` run `_to_decimal`, the two in `_coerce_dates` run
`_parse_iso_or_quarter`, `Real_Estate_Segment` is an optional enum, and
the remaining four are optional strings. -/
def validateSnapshot (r : RawSnapshot) : Except Unit AssetSnapshot := do
  let possessoEntry ← optDec r.possessoEntry
  let evEntry ← optDec r.evEntry
  let ebitdaEntry ← optDec r.ebitdaEntry
  let marginEntry ← optDec r.marginEntry
  let netRevenueEntry ← optDec r.netRevenueEntry
  let netDebtEntry ← optDec r.netDebtEntry
  let fcfEntry ← optDec r.fcfEntry
  let netResultEntry ← optDec r.netResultEntry
  let evEbitdaEntry ← optDec r.evEbitdaEntry
  let evRevenueEntry ← optDec r.evRevenueEntry
  let netDebtEbitdaEntry ← optDec r.netDebtEbitdaEntry
  let economicsReportingDate ← optDate r.economicsReportingDate
  let possesso ← optDec r.possesso
  let ev ← optDec r.ev
  let ltmEbitda ← optDec r.ltmEbitda
  let ltmMargin ← optDec r.ltmMargin
  let ltmNetRevenues ← optDec r.ltmNetRevenues
  let ltmNetEquity ← optDec r.ltmNetEquity
  let ltmNetDebt ← optDec r.ltmNetDebt
  let ltmFcf ← optDec r.ltmFcf
  let ltmGrossProfit ← optDec r.ltmGrossProfit
  let ltmNetResult ← optDec r.ltmNetResult
  let targetCompanyDeRatio ← optDec r.targetCompanyDeRatio
  let discountRate ← optDec r.discountRate
  let beta ← optDec r.beta
  let costOfEquity ← optDec r.costOfEquity
  let costOfDebt ← optDec r.costOfDebt
  let evEbitda ← optDec r.evEbitda
  let evRevenue ← optDec r.evRevenue
  let netDebtEbitda ← optDec r.netDebtEbitda
  let maturityDate ← optDate r.maturityDate
  let price ← optDec r.price
  let coupon ← optDec r.coupon
  let spread ← optDec r.spread
  let watchlistPosition ← optStr r.watchlistPosition
  let ltv ← optDec r.ltv
  let leverageEntry ← optDec r.leverageEntry
  let leverage ← optDec r.leverage
  let duration ← optDec r.duration
  let creditSensitivity ← optDec r.creditSensitivity
  let riskFreeRateApplied ← optDec r.riskFreeRateApplied
  let creditRating ← optStr r.creditRating
  let creditRatingSource ← optStr r.creditRatingSource
  let creditSpreadPct ← optDec r.creditSpreadPct
  let countryPremiumPct ← optDec r.countryPremiumPct
  let liquidityPremiumPct ← optDec r.liquidityPremiumPct
  let otherPremiaPct ← optDec r.otherPremiaPct
  let totalDiscountRateAppliedPct ← optDec r.totalDiscountRateAppliedPct
  let area ← optStr r.area
  let realEstateSegment ← optEnum realEstateSegmentValues r.realEstateSegment
  pure { possessoEntry, evEntry, ebitdaEntry, marginEntry, netRevenueEntry,
         netDebtEntry, fcfEntry, netResultEntry, evEbitdaEntry, evRevenueEntry,
         netDebtEbitdaEntry, economicsReportingDate, possesso, ev, ltmEbitda,
         ltmMargin, ltmNetRevenues, ltmNetEquity, ltmNetDebt, ltmFcf,
         ltmGrossProfit, ltmNetResult, targetCompanyDeRatio, discountRate, beta,
         costOfEquity, costOfDebt, evEbitda, evRevenue, netDebtEbitda,
         maturityDate, price, coupon, spread, watchlistPosition, ltv,
         leverageEntry, leverage, duration, creditSensitivity,
         riskFreeRateApplied, creditRating, creditRatingSource, creditSpreadPct,
         countryPremiumPct, liquidityPremiumPct, otherPremiaPct,
         totalDiscountRateAppliedPct, area, realEstateSegment }

/-! ## `FundExposure` (src/models.py lines 234-287) -/

structure RawRecord where
  navDate : Option RawVal := none
  valuationDate : Option RawVal := none
  fondoTargetAsset : Option RawVal := none
  oicrFondoTarget : Option RawVal := none
  oicr : Option RawVal := none
  isinOicr : Option RawVal := none
  nomeFondoTarget : Option RawVal := none
  isinFondoTarget : Option RawVal := none
  tipologiaStrumento : Option RawVal := none
  currencyFondoTarget : Option RawVal := none
  countryFondoTarget : Option RawVal := none
  hedgingStrategyFondoTarget : Option RawVal := none
  strategiaFondoTarget : Option RawVal := none
  nomeAsset : Option RawVal := none
  nomeAssetSintetico : Option RawVal := none
  areaGeoAsset : Option RawVal := none
  paeseAsset : Option RawVal := none
  indirizzoAsset : Option RawVal := none
  currencyAsset : Option RawVal := none
  macrosettoreAttivitaAsset : Option RawVal := none
  settoreAttivitaAsset : Option RawVal := none
  tipologiaInvestimento : Option RawVal := none
  investmentDate : Option RawVal := none
  exitDate : Option RawVal := none
  valuationMethodology : Option RawVal := none
  realizedUnrealized : Option RawVal := none
  commitmentFondoTarget : Option RawVal := none
  capitaleInvestitoLordoLocCurr : Option RawVal := none
  distribuzioniLocCurr : Option RawVal := none
  fmvLocCurr : Option RawVal := none
  tvpi : Option RawVal := none
  irr : Option RawVal := none
  capInvFondoTargetPct : Option RawVal := none
  fmvFondoTargetPct : Option RawVal := none
  capInvRipartitoFofEur : Option RawVal := none
  navRipartitoFofEur : Option RawVal := none
  capitaleInvestitoFofPct : Option RawVal := none
  fmvFofPct : Option RawVal := none
  assetSnapshots : Option (List RawSnapshot) := none

structure FundExposure where
  navDate : PyDate
  valuationDate : Option PyDate
  fondoTargetAsset : String
  oicrFondoTarget : String
  oicr : String
  isinOicr : Option String
  nomeFondoTarget : String
  isinFondoTarget : Option String
  tipologiaStrumento : Option String
  currencyFondoTarget : Option String
  countryFondoTarget : Option String
  hedgingStrategyFondoTarget : Option String
  strategiaFondoTarget : Option String
  nomeAsset : Option String
  nomeAssetSintetico : Option String
  areaGeoAsset : Option String
  paeseAsset : Option String
  indirizzoAsset : Option String
  currencyAsset : Option String
  macrosettoreAttivitaAsset : Option String
  settoreAttivitaAsset : Option String
  tipologiaInvestimento : Option String
  investmentDate : Option PyDate
  exitDate : Option PyDate
  valuationMethodology : Option String
  realizedUnrealized : Option String
  commitmentFondoTarget : Option PyDec
  capitaleInvestitoLordoLocCurr : Option PyDec
  distribuzioniLocCurr : Option PyDec
  fmvLocCurr : Option PyDec
  tvpi : Option PyDec
  irr : Option PyDec
  capInvFondoTargetPct : Option PyDec
  fmvFondoTargetPct : Option PyDec
  capInvRipartitoFofEur : Option PyDec
  navRipartitoFofEur : Option PyDec
  capitaleInvestitoFofPct : Option PyDec
  fmvFofPct : Option PyDec
  assetSnapshots : List AssetSnapshot

/-- The `asset_snapshots` field: `default_factory=list` makes an absent
value the empty list; a present list validates element-wise and any
element failure fails the record. -/
def optSnapList : Option (List RawSnapshot) → Except Unit (List AssetSnapshot)
  | none => .ok []
  | some l => l.mapM validateSnapshot

/-- Validation of one `FundExposure` candidate record.  The five fields
declared without a default (`NAV_Date`, `FONDO_TARGET_ASSET`,
`OICR_FONDO_TARGET`, `OICR`, `Nome_Fondo_Target`) are required; every
other field is optional.  The twelve amounts run `_to_decimal`, the four
dates run `_parse_iso_or_quarter`, and seven fields are enums. -/
def validateRecord (r : RawRecord) : Except Unit FundExposure := do
  let navDate ← reqDate r.navDate
  let valuationDate ← optDate r.valuationDate
  let fondoTargetAsset ← reqStr r.fondoTargetAsset
  let oicrFondoTarget ← reqStr r.oicrFondoTarget
  let oicr ← reqStr r.oicr
  let isinOicr ← optStr r.isinOicr
  let nomeFondoTarget ← reqStr r.nomeFondoTarget
  let isinFondoTarget ← optStr r.isinFondoTarget
  let tipologiaStrumento ← optEnum instrumentStrategyValues r.tipologiaStrumento
  let currencyFondoTarget ← optStr r.currencyFondoTarget
  let countryFondoTarget ← optStr r.countryFondoTarget
  let hedgingStrategyFondoTarget ← optEnum hedgingStrategyValues r.hedgingStrategyFondoTarget
  let strategiaFondoTarget ← optEnum underlyingFundStrategyValues r.strategiaFondoTarget
  let nomeAsset ← optStr r.nomeAsset
  let nomeAssetSintetico ← optStr r.nomeAssetSintetico
  let areaGeoAsset ← optEnum geographyMacroareaValues r.areaGeoAsset
  let paeseAsset ← optStr r.paeseAsset
  let indirizzoAsset ← optStr r.indirizzoAsset
  let currencyAsset ← optStr r.currencyAsset
  let macrosettoreAttivitaAsset ← optEnum macroSectorValues r.macrosettoreAttivitaAsset
  let settoreAttivitaAsset ← optStr r.settoreAttivitaAsset
  let tipologiaInvestimento ← optEnum investmentTypeValues r.tipologiaInvestimento
  let investmentDate ← optDate r.investmentDate
  let exitDate ← optDate r.exitDate
  let valuationMethodology ← optStr r.valuationMethodology
  let realizedUnrealized ← optEnum realizationStatusValues r.realizedUnrealized
  let commitmentFondoTarget ← optDec r.commitmentFondoTarget
  let capitaleInvestitoLordoLocCurr ← optDec r.capitaleInvestitoLordoLocCurr
  let distribuzioniLocCurr ← optDec r.distribuzioniLocCurr
  let fmvLocCurr ← optDec r.fmvLocCurr
  let tvpi ← optDec r.tvpi
  let irr ← optDec r.irr
  let capInvFondoTargetPct ← optDec r.capInvFondoTargetPct
  let fmvFondoTargetPct ← optDec r.fmvFondoTargetPct
  let capInvRipartitoFofEur ← optDec r.capInvRipartitoFofEur
  let navRipartitoFofEur ← optDec r.navRipartitoFofEur
  let capitaleInvestitoFofPct ← optDec r.capitaleInvestitoFofPct
  let fmvFofPct ← optDec r.fmvFofPct
  let assetSnapshots ← optSnapList r.assetSnapshots
  pure { navDate, valuationDate, fondoTargetAsset, oicrFondoTarget, oicr,
         isinOicr, nomeFondoTarget, isinFondoTarget, tipologiaStrumento,
         currencyFondoTarget, countryFondoTarget, hedgingStrategyFondoTarget,
         strategiaFondoTarget, nomeAsset, nomeAssetSintetico, areaGeoAsset,
         paeseAsset, indirizzoAsset, currencyAsset, macrosettoreAttivitaAsset,
         settoreAttivitaAsset, tipologiaInvestimento, investmentDate, exitDate,
         valuationMethodology, realizedUnrealized, commitmentFondoTarget,
         capitaleInvestitoLordoLocCurr, distribuzioniLocCurr, fmvLocCurr, tvpi,
         irr, capInvFondoTargetPct, fmvFondoTargetPct, capInvRipartitoFofEur,
         navRipartitoFofEur, capitaleInvestitoFofPct, fmvFofPct, assetSnapshots }

/-! ## Batch processing (src/models.py line 294, src/agent_field_matching.py)

A document (one markdown file sent to the extraction model) yields one
`FundExposureBatch`, a list of candidate records, whose parse fails as a
whole if any item fails (pydantic list validation).  `field_matching`
wraps each document in its own try/except, so a failing document is
skipped (no JSON written, hence no rows exported) while other documents
continue. -/

/-- Element-wise validation of the `items` list of a `FundExposureBatch`:
the batch parses only if every record parses. -/
def mapMExcept (f : α → Except Unit β) : List α → Except Unit (List β)
  | [] => .ok []
  | x :: xs =>
    match f x with
    | .error e => .error e
    | .ok b =>
      match mapMExcept f xs with
      | .error e => .error e
      | .ok bs => .ok (b :: bs)

def validateBatch (items : List RawRecord) : Except Unit (List FundExposure) :=
  mapMExcept validateRecord items

/-- `field_matching` over a list of documents, each carrying the candidate
records of its batch: per-document try/except keeps the successfully
validated batches and drops the failing ones. -/
def fieldMatching (docs : List (List RawRecord)) : List (List FundExposure) :=
  docs.filterMap (fun d => (validateBatch d).toOption)

def exOk : Except Unit α → Bool
  | .ok _ => true
  | .error _ => false

/-! ## Excel export (src/excel_exporting.py)

`flatten_record` works on the JSON round-trip of a record dump: a dict
mapping alias keys to JSON values, with the per-asset snapshots under the
reserved key `asset_snapshots` as a list of dicts.  JSON values are
embedded as `JVal`; missing keys map to `None` (`JVal.null`). -/

inductive JVal where
  | null
  | str (s : String)
  | num (q : ℚ)
  | arr (xs : List JVal)
  | obj (kvs : List (String × JVal))

def isNullJ : JVal → Bool
  | .null => true
  | _ => false

/-- Python `dict.get(k, None)` on an association list. -/
def getJ (kvs : List (String × JVal)) (k : String) : JVal :=
  match kvs with
  | [] => .null
  | (k1, v) :: rest => if k1 = k then v else getJ rest k

/-- Python `k in dict`. -/
def hasKeyJ (kvs : List (String × JVal)) (k : String) : Bool :=
  match kvs with
  | [] => false
  | (k1, _) :: rest => k1 == k || hasKeyJ rest k

/-- `COLUMNS` (src/excel_exporting.py lines 9-29). -/
def COLUMNS : List String :=
  ["NAV_Date", "Valuation_Date", "FONDO_TARGET_ASSET", "OICR_FONDO_TARGET",
   "OICR", "ISIN_OICR", "Nome_Fondo_Target", "ISIN_Fondo_Target",
   "Tipologia_Strumento", "Currency_Fondo_Target", "Country_Fondo_Target",
   "Hedging_Strategy_Fondo_Target", "Strategia_Fondo_Target", "Nome_Asset",
   "Nome_Asset_Sintetico", "Area_Geo_Asset", "Paese_Asset", "Indirizzo_Asset",
   "Currency_Asset", "Macrosettore_Attivita_Asset", "Settore_Attivita_Asset",
   "Tipologia_Investimento", "Investment_Date", "Exit_Date",
   "Valuation_Methodology", "Realized_Unrealized", "Commitment_Fondo_Target",
   "Capitale_Investito_Lordo_Loc_Curr", "Distribuzioni_Loc_Curr",
   "FMV_Loc_Curr", "TVPI", "IRR", "Cap_Inv_Fondo_Target", "FMV_Fondo_Target",
   "Cap_Inv_Ripartito_FOF", "NAV_Ripartito_FOF", "Capitale_Investito_Fof",
   "FMV_Fof", "Possesso_Entry", "EV_Entry", "EBITDA_Entry", "Margin_Entry",
   "Net_Revenue_Entry", "Net_Debt_Entry", "FCF_Entry", "Net_Result_Entry",
   "EVEbitda_Entry", "EVRevenue_Entry", "Net_DebtEbitda_Entry",
   "Economics_Reporting_Date", "Possesso", "EV", "LTM_EBITDA", "LTM_Margin",
   "LTM_Net_Revenues", "LTM_Net_Equity", "LTM_Net_Debt", "LTM_FCF",
   "LTM_Gross_Profit", "LTM_Net_Result", "Target_Companys_Debt_Equity_Ratio",
   "Discount_Rate", "Beta", "Cost_of_Equity", "Cost_of_Debt", "EVEBITDA",
   "EVRevenue", "Net_DebtEbitda", "Maturity_Date", "Price", "Coupon", "Spread",
   "Watchlist_position", "Ltv", "Leverage_Entry", "Leverage", "Duration",
   "Credit_Sensitivity", "Risk_Free_Rate_applied_to_Valuation",
   "Credit_Rating", "Credit_Rating_Source", "Credit_Spread", "Country_Premium",
   "Liquidity_Premium", "Other_premia",
   "Total_Discount_Rate_applied_to_Valuation", "Area", "Real_Estate_Segment"]

/-- `COLUMN_GROUPS` (src/excel_exporting.py lines 32-70), in source
(insertion) order. -/
def COLUMN_GROUPS : List (String × List String) :=
  [("beige", ["NAV_Date", "Valuation_Date"]),
   ("gray", ["FONDO_TARGET_ASSET", "OICR_FONDO_TARGET", "OICR", "ISIN_OICR"]),
   ("light_blue",
    ["Nome_Fondo_Target", "ISIN_Fondo_Target", "Tipologia_Strumento",
     "Currency_Fondo_Target", "Country_Fondo_Target",
     "Hedging_Strategy_Fondo_Target", "Strategia_Fondo_Target"]),
   ("light_yellow",
    ["Nome_Asset", "Nome_Asset_Sintetico", "Area_Geo_Asset", "Paese_Asset",
     "Indirizzo_Asset", "Currency_Asset", "Macrosettore_Attivita_Asset",
     "Settore_Attivita_Asset"]),
   ("pink",
    ["Tipologia_Investimento", "Investment_Date", "Exit_Date",
     "Valuation_Methodology", "Realized_Unrealized", "Commitment_Fondo_Target",
     "Capitale_Investito_Lordo_Loc_Curr", "Distribuzioni_Loc_Curr",
     "FMV_Loc_Curr", "TVPI", "IRR", "Cap_Inv_Fondo_Target", "FMV_Fondo_Target",
     "Cap_Inv_Ripartito_FOF", "NAV_Ripartito_FOF", "Capitale_Investito_Fof",
     "FMV_Fof"]),
   ("light_green",
    ["Possesso_Entry", "EV_Entry", "EBITDA_Entry", "Margin_Entry",
     "Net_Revenue_Entry", "Net_Debt_Entry", "FCF_Entry", "Net_Result_Entry",
     "EVEbitda_Entry", "EVRevenue_Entry", "Net_DebtEbitda_Entry",
     "Economics_Reporting_Date", "Possesso", "EV", "LTM_EBITDA", "LTM_Margin",
     "LTM_Net_Revenues", "LTM_Net_Equity", "LTM_Net_Debt", "LTM_FCF",
     "LTM_Gross_Profit", "LTM_Net_Result"]),
   ("gray2",
    ["Target_Companys_Debt_Equity_Ratio", "Discount_Rate", "Beta",
     "Cost_of_Equity", "Cost_of_Debt"]),
   ("orange",
    ["EVEBITDA", "EVRevenue", "Net_DebtEbitda", "Maturity_Date", "Price",
     "Coupon", "Spread", "Watchlist_position", "Ltv", "Leverage_Entry",
     "Leverage", "Duration", "Credit_Sensitivity"]),
   ("gray3",
    ["Risk_Free_Rate_applied_to_Valuation", "Credit_Rating",
     "Credit_Rating_Source", "Credit_Spread", "Country_Premium",
     "Liquidity_Premium", "Other_premia",
     "Total_Discount_Rate_applied_to_Valuation"]),
   ("green_final", ["Area", "Real_Estate_Segment"])]

/-- The snapshot-scoped columns: the aliases of the `AssetSnapshot`
fields (src/models.py lines 163-212), which have no top-level counterpart
in a dumped record. -/
def SNAPSHOT_COLUMNS : List String :=
  ["Possesso_Entry", "EV_Entry", "EBITDA_Entry", "Margin_Entry",
   "Net_Revenue_Entry", "Net_Debt_Entry", "FCF_Entry", "Net_Result_Entry",
   "EVEbitda_Entry", "EVRevenue_Entry", "Net_DebtEbitda_Entry",
   "Economics_Reporting_Date", "Possesso", "EV", "LTM_EBITDA", "LTM_Margin",
   "LTM_Net_Revenues", "LTM_Net_Equity", "LTM_Net_Debt", "LTM_FCF",
   "LTM_Gross_Profit", "LTM_Net_Result", "Target_Companys_Debt_Equity_Ratio",
   "Discount_Rate", "Beta", "Cost_of_Equity", "Cost_of_Debt", "EVEBITDA",
   "EVRevenue", "Net_DebtEbitda", "Maturity_Date", "Price", "Coupon", "Spread",
   "Watchlist_position", "Ltv", "Leverage_Entry", "Leverage", "Duration",
   "Credit_Sensitivity", "Risk_Free_Rate_applied_to_Valuation",
   "Credit_Rating", "Credit_Rating_Source", "Credit_Spread", "Country_Premium",
   "Liquidity_Premium", "Other_premia",
   "Total_Discount_Rate_applied_to_Valuation", "Area", "Real_Estate_Segment"]

/-- The first snapshot dict of a record, `{}` when `asset_snapshots` is
not a nonempty list (every snapshot element a record dump produces is a
dict, so a non-dict first element does not occur and is also sent to
`{}`). -/
def firstSnap (rec : List (String × JVal)) : List (String × JVal) :=
  match getJ rec "asset_snapshots" with
  | .arr (x :: _) =>
    match x with
    | .obj o => o
    | _ => []
  | _ => []

/-- `flatten_record` (src/excel_exporting.py lines 86-93): one row keyed
by `COLUMNS`; each column holds the first-snapshot value when that key is
present with a non-null value, and the top-level value (default null)
otherwise. -/
def flattenRecord (rec : List (String × JVal)) : List (String × JVal) :=
  COLUMNS.map (fun k =>
    (k, if hasKeyJ (firstSnap rec) k && !isNullJ (getJ (firstSnap rec) k) then
          getJ (firstSnap rec) k
        else getJ rec k))

/-! ## Sample candidate records used in the concrete theorems -/

/-- A candidate record carrying exactly the five fields declared without a
default: the reference NAV date and the four identity strings. -/
def sampleOk : RawRecord :=
  { navDate := some (.str "2023-06-30"),
    fondoTargetAsset := some (.str "FOF - Fund - Asset"),
    oicrFondoTarget := some (.str "FOF - Fund"),
    oicr := some (.str "FOF"),
    nomeFondoTarget := some (.str "Fund") }

/-- `sampleOk` with the required `OICR` identity string absent. -/
def sampleMissingId : RawRecord := { sampleOk with oicr := none }

/-- A dumped record whose first snapshot has a present non-null value
under `EV` and a present null value under `Price`. -/
def sampleRow : List (String × JVal) :=
  [("NAV_Date", .str "2023-06-30"),
   ("asset_snapshots", .arr [.obj [("EV", .num 5), ("Price", .null)]])]

/-- A dumped record with an empty snapshot list and no snapshot-scoped
top-level keys. -/
def sampleRowEmpty : List (String × JVal) :=
  [("NAV_Date", .str "2023-06-30"), ("asset_snapshots", .arr [])]

deriving instance DecidableEq for Except

/-! ## Supporting lemmas -/

theorem lstrip_cons_of_nonspace (c : Char) (l : List Char) (h : isSpaceCh c = false) :
    lstrip (c :: l) = c :: l := by
  simp [lstrip, List.dropWhile_cons, h]

theorem lstrip_cons_of_space (c : Char) (l : List Char) (h : isSpaceCh c = true) :
    lstrip (c :: l) = lstrip l := by
  simp [lstrip, List.dropWhile_cons, h]

theorem rstrip_append (A l : List Char) (h : rstrip l = l) (hne : l ≠ []) :
    rstrip (A ++ l) = A ++ l := by
  have h2 : l.reverse.dropWhile isSpaceCh = l.reverse := by
    have h3 := congrArg List.reverse h
    rwa [rstrip, List.reverse_reverse] at h3
  obtain ⟨c, t, hct⟩ : ∃ c t, l.reverse = c :: t := by
    cases hl : l.reverse with
    | nil =>
      exact absurd (by simpa using congrArg List.reverse hl) hne
    | cons c t => exact ⟨c, t, rfl⟩
  have hc : isSpaceCh c = false := by
    cases hsp : isSpaceCh c with
    | false => rfl
    | true =>
      rw [hct, List.dropWhile_cons, hsp] at h2
      have hlen := congrArg List.length h2
      have hle := (List.dropWhile_sublist (p := isSpaceCh) (l := t)).length_le
      simp at hlen
      omega
  have hl : l = t.reverse ++ [c] := by
    rw [← List.reverse_reverse l, hct, List.reverse_cons]
  rw [rstrip, List.reverse_append, hct, List.cons_append, List.dropWhile_cons, hc]
  simp only [Bool.false_eq_true, if_false, List.reverse_cons]
  rw [List.reverse_append, List.reverse_reverse, hl, List.append_assoc]

theorem battery_nil : battery [] = none := rfl

theorem asOfSub_cons_of (c : Char) (cs : List Char) (pw : Bool)
    (hc : (lowCh c == 'a') = false) :
    asOfSub pw (c :: cs) = c :: asOfSub (isWordCh c) cs := by
  match cs with
  | [] => rfl
  | [c2] => rfl
  | [c2, c3] => rfl
  | [c2, c3, c4] => rfl
  | c2 :: c3 :: c4 :: c5 :: rest =>
    simp only [asOfSub, hc, Bool.and_false, Bool.false_and, Bool.false_eq_true, if_false]

theorem mapMExcept_error {α β : Type} (f : α → Except Unit β) (r : α)
    (hr : f r = .error ()) (pre post : List α) :
    mapMExcept f (pre ++ r :: post) = .error () := by
  induction pre with
  | nil => simp [mapMExcept, hr]
  | cons x xs ih =>
    simp only [List.cons_append, mapMExcept]
    cases hfx : f x with
    | error e => rfl
    | ok b =>
      have ih2 : mapMExcept f (xs.append (r :: post)) = .error () := ih
      rw [ih2]

theorem getJ_map (f : String → JVal) (l : List String) (k : String) (hk : k ∈ l) :
    getJ (l.map (fun x => (x, f x))) k = f k := by
  induction l with
  | nil => cases hk
  | cons a t ih =>
    simp only [List.map_cons, getJ]
    by_cases h : a = k
    · subst h; simp
    · rw [if_neg h]
      rcases List.mem_cons.mp hk with h1 | h1
      · exact absurd h1.symm h
      · exact ih h1

theorem getJ_eq_null_of_not_hasKey (kvs : List (String × JVal)) (k : String)
    (h : hasKeyJ kvs k = false) : getJ kvs k = .null := by
  induction kvs with
  | nil => rfl
  | cons p rest ih =>
    obtain ⟨k1, v⟩ := p
    simp only [hasKeyJ, Bool.or_eq_false_iff] at h
    simp only [getJ]
    rw [if_neg (by simpa using h.1)]
    exact ih h.2

theorem flattenRecord_get (rec : List (String × JVal)) (k : String)
    (hk : k ∈ COLUMNS) :
    getJ (flattenRecord rec) k =
      if hasKeyJ (firstSnap rec) k && !isNullJ (getJ (firstSnap rec) k) then
        getJ (firstSnap rec) k
      else getJ rec k :=
  getJ_map _ COLUMNS k hk

theorem snapshotColumns_subset : ∀ k ∈ SNAPSHOT_COLUMNS, k ∈ COLUMNS := by decide

/-! ## Claim theorems -/

/-- C1 counterexample: the claim that `_to_decimal` never raises is false.
On the string `a%` the percent branch evaluates `Decimal("a")`, whose
`InvalidOperation` is outside the try/except that guards only the
plain-number path, so the call raises. -/
theorem C1_counterexample : toDec (.vStr "a%") = .error () := rfl

/-- C1 amended: `coerce_decimal(None)` and `coerce_decimal("")` return
Unset, and any string that reaches the plain-number path (no percent,
basis-point, multiple or magnitude suffix) and fails to parse as a
decimal returns Unset without raising; however a malformed numeric part
under a recognized suffix raises `InvalidOperation` instead of returning
Unset, so coercion is not exception-free on all strings. -/
theorem C1_amended_unset_on_plain_failures :
    toDec .vNone = .ok none ∧
    toDec (.vStr "") = .ok none ∧
    (∀ s : String, endsPct (pyStripL s.data) = false →
      endsBpCI (pyStripL s.data) = false →
      endsXCI (pyStripL s.data) = false →
      kmbSuffix (stripCur (pyStripL s.data)) = none →
      decParseL (stripCur (pyStripL s.data)) = none →
      toDec (.vStr s) = .ok none) ∧
    toDec (.vStr "a%") = .error () := by
  refine ⟨rfl, rfl, ?_, rfl⟩
  intro s h1 h2 h3 h4 h5
  by_cases hs : s = ""
  · subst hs; rfl
  · rw [toDec, if_neg hs, toDecCore, h1, if_neg Bool.false_ne_true, h2,
      if_neg Bool.false_ne_true, h3, if_neg Bool.false_ne_true, h4, h5]

/-- C1 witness: the general Unset clause applied to the unparseable
suffix-free string `hello`. -/
theorem C1_witness : toDec (.vStr "hello") = .ok none :=
  C1_amended_unset_on_plain_failures.2.2.1 "hello"
    (by decide) (by decide) (by decide) (by decide) (by decide)

unseal Rat.mul Rat.inv Rat.sub Rat.add in
/-- C5 counterexample: the claim fails on a percent string whose exact
quotient needs more than 28 significant digits.  The division by 100
runs under the default context (28 significant digits, half-even
rounding), so the 29-digit numeric part of
`12345678901234567890123456789%` yields 123456789012345678901234567.9,
not the exact documented value 123456789012345678901234567.89. -/
theorem C5_counterexample :
    toDec (.vStr "12345678901234567890123456789%")
      = .ok (some (.num (1234567890123456789012345679 / 10))) ∧
    (1234567890123456789012345679 / 10 : ℚ)
      ≠ (12345678901234567890123456789 : ℚ) / 100 :=
  ⟨by decide, by decide⟩

unseal Rat.mul Rat.inv Rat.sub Rat.add in
/-- C5 amended: for every string with a recognized suffix class whose
numeric part parses to a finite decimal, `_to_decimal` returns the
documented base-unit value as computed by default-context Decimal
arithmetic: the percent suffix yields the numeric part divided by 100
and the basis-point suffix the numeric part divided by 10000, each
rounded to 28 significant digits half-even (and raising Overflow past
Emax); the multiple suffix returns the numeric part exactly, the
constructor performing no arithmetic; and after stripping commas and
currency symbols a trailing K/M/B multiplies the numeric part by
1e3/1e6/1e9 under the same context rounding.  The documented examples
`1.2M`, `5%`, `250bp` and `2.7x` are exact, their results fitting within
the precision. -/
theorem C5_suffix_base_units :
    toDec (.vStr "1.2M") = .ok (some (.num 1200000)) ∧
    toDec (.vStr "5%") = .ok (some (.num (1 / 20))) ∧
    toDec (.vStr "250bp") = .ok (some (.num (1 / 40))) ∧
    toDec (.vStr "2.7x") = .ok (some (.num (27 / 10))) ∧
    (∀ (s : String) (q v : ℚ), endsPct (pyStripL s.data) = true →
      decParseL (stripCommas (pyStripL (pyStripL s.data).dropLast)) = some (.num q) →
      ctxRound (q / 100) = .ok v →
      toDec (.vStr s) = .ok (some (.num v))) ∧
    (∀ (s : String) (q v : ℚ), endsPct (pyStripL s.data) = false →
      endsBpCI (pyStripL s.data) = true →
      decParseL (stripCommas (pyStripL (pyStripL s.data).dropLast.dropLast)) = some (.num q) →
      ctxRound (q / 10000) = .ok v →
      toDec (.vStr s) = .ok (some (.num v))) ∧
    (∀ (s : String) (q : ℚ), endsPct (pyStripL s.data) = false →
      endsBpCI (pyStripL s.data) = false →
      endsXCI (pyStripL s.data) = true →
      decParseL (stripCommas (pyStripL (pyStripL s.data).dropLast)) = some (.num q) →
      toDec (.vStr s) = .ok (some (.num q))) ∧
    (∀ (s : String) (q m v : ℚ), endsPct (pyStripL s.data) = false →
      endsBpCI (pyStripL s.data) = false →
      endsXCI (pyStripL s.data) = false →
      kmbSuffix (stripCur (pyStripL s.data)) = some m →
      decParseL (stripCur (pyStripL s.data)).dropLast = some (.num q) →
      ctxRound (q * m) = .ok v →
      toDec (.vStr s) = .ok (some (.num v))) := by
  refine ⟨by decide, by decide, by decide, by decide, ?_, ?_, ?_, ?_⟩
  · intro s q v h1 h2 h3
    have hs : s ≠ "" := by
      intro he; subst he; exact absurd h1 (by decide)
    rw [toDec, if_neg hs, toDecCore, if_pos h1, h2]
    show (match pdDiv (.num q) (.num 100) with
          | .error _ => Except.error ()
          | .ok r => .ok (some r)) = .ok (some (.num v))
    rw [pdDiv, if_neg (by norm_num : ¬((100 : ℚ) = 0)), h3]
  · intro s q v h1 h2 h3 h4
    have hs : s ≠ "" := by
      intro he; subst he; exact absurd h2 (by decide)
    rw [toDec, if_neg hs, toDecCore, h1, if_neg Bool.false_ne_true, if_pos h2, h3]
    show (match pdDiv (.num q) (.num 10000) with
          | .error _ => Except.error ()
          | .ok r => .ok (some r)) = .ok (some (.num v))
    rw [pdDiv, if_neg (by norm_num : ¬((10000 : ℚ) = 0)), h4]
  · intro s q h1 h2 h3 h4
    have hs : s ≠ "" := by
      intro he; subst he; exact absurd h3 (by decide)
    rw [toDec, if_neg hs, toDecCore, h1, if_neg Bool.false_ne_true, h2,
      if_neg Bool.false_ne_true, if_pos h3, h4]
  · intro s q m v h1 h2 h3 h4 h5 h6
    have hs : s ≠ "" := by
      intro he; subst he
      rw [show kmbSuffix (stripCur (pyStripL ("" : String).data)) = none from rfl] at h4
      simp at h4
    rw [toDec, if_neg hs, toDecCore, h1, if_neg Bool.false_ne_true, h2,
      if_neg Bool.false_ne_true, h3, if_neg Bool.false_ne_true, h4, h5]
    show (match pdMul (.num q) (.num m) with
          | .error _ => Except.error ()
          | .ok r => .ok (some r)) = .ok (some (.num v))
    rw [pdMul, h6]

unseal Rat.mul Rat.inv Rat.sub Rat.add in
/-- C5 witness: the four general suffix clauses applied to `7%`, `3bp`,
`1.5x` and `2K`, whose context-rounded results are exact. -/
theorem C5_witness :
    toDec (.vStr "7%") = .ok (some (.num (7 / 100))) ∧
    toDec (.vStr "3bp") = .ok (some (.num (3 / 10000))) ∧
    toDec (.vStr "1.5x") = .ok (some (.num (3 / 2))) ∧
    toDec (.vStr "2K") = .ok (some (.num (2 * 1000))) :=
  ⟨C5_suffix_base_units.2.2.2.2.1 "7%" 7 (7 / 100) (by decide) (by decide)
     (by decide),
   C5_suffix_base_units.2.2.2.2.2.1 "3bp" 3 (3 / 10000) (by decide) (by decide)
     (by decide) (by decide),
   C5_suffix_base_units.2.2.2.2.2.2.1 "1.5x" (3 / 2) (by decide) (by decide)
     (by decide) (by decide),
   C5_suffix_base_units.2.2.2.2.2.2.2 "2K" 2 1000 (2 * 1000) (by decide)
     (by decide) (by decide) (by decide) (by decide) (by decide)⟩

/-- C10: strings accepted by the special tokens of the `Decimal`
constructor fall through the suffix and magnitude checks: `NaN` yields a
quiet Decimal NaN and `inf` yields Decimal Infinity, not Unset, so the
fails-to-parse fallback does not cover every non-numeric string. -/
theorem C10_nonfinite_decimal_passthrough :
    toDec (.vStr "NaN") = .ok (some (.nan false)) ∧
    toDec (.vStr "inf") = .ok (some (.inf false)) :=
  ⟨rfl, rfl⟩

/-- C6 counterexample: the unrestricted quarter mapping of the claim
fails at year 0000.  `Q1 0000` matches the quarter regex, and the
quarter branch (outside any try/except) calls `date(0, 3, 31)`, which
raises `ValueError` uncaught instead of producing a date or Unset. -/
theorem C6_counterexample : pDate (.vStr "Q1 0000") = .error () := rfl

/-- C6 amended: `coerce_date` resolves the recognized formats as
documented: `Q2 2023` gives 2023-06-30, the ISO year-month `2023-07`
gives the last day 2023-07-31, `as of 30 June 2023` gives 2023-06-30;
every quarter match `Q<1-4> <YYYY>` with year at least 1 resolves to the
last day of the final month of the quarter (Q1 to Mar 31, Q2 to Jun 30,
Q3 to Sep 30, Q4 to Dec 31), while year 0000 raises; and an input
matching neither the quarter notation nor any battery format yields
Unset without an exception. -/
theorem C6_date_format_resolution :
    pDate (.vStr "Q2 2023") = .ok (some ⟨2023, 6, 30⟩) ∧
    pDate (.vStr "2023-07") = .ok (some ⟨2023, 7, 31⟩) ∧
    pDate (.vStr "as of 30 June 2023") = .ok (some ⟨2023, 6, 30⟩) ∧
    (∀ y : Nat, quarterEnd 1 y = ⟨y, 3, 31⟩ ∧ quarterEnd 2 y = ⟨y, 6, 30⟩ ∧
      quarterEnd 3 y = ⟨y, 9, 30⟩ ∧ quarterEnd 4 y = ⟨y, 12, 31⟩) ∧
    (∀ (s : String) (q y : Nat), quarterHead (pyStripL s.data) = some (q, y) →
      1 ≤ y → pDate (.vStr s) = .ok (some (quarterEnd q y))) ∧
    (∀ s : String, quarterHead (pyStripL s.data) = none →
      battery (pyStripL (asOfSub false (pyStripL s.data))) = none →
      pDate (.vStr s) = .ok none) := by
  refine ⟨rfl, rfl, rfl, fun y => ⟨rfl, rfl, rfl, rfl⟩, ?_, ?_⟩
  · intro s q y h hy
    have hs : s ≠ "" := by
      intro he; subst he
      rw [show quarterHead (pyStripL ("" : String).data) = none from rfl] at h
      simp at h
    rw [pDate, if_neg hs, pDateCore, h]
    show (if y = 0 then Except.error () else .ok (some (quarterEnd q y)))
        = .ok (some (quarterEnd q y))
    rw [if_neg (by omega : ¬(y = 0))]
  · intro s h1 h2
    by_cases hs : s = ""
    · subst hs; rfl
    · rw [pDate, if_neg hs, pDateCore, h1]
      show Except.ok (battery (pyStripL (asOfSub false (pyStripL s.data)))) = .ok none
      rw [h2]

/-- C6 witness: the quarter clause applied to `Q4 2010` and the
no-format clause applied to `total gibberish`. -/
theorem C6_witness :
    pDate (.vStr "Q4 2010") = .ok (some (quarterEnd 4 2010)) ∧
    pDate (.vStr "total gibberish") = .ok none :=
  ⟨C6_date_format_resolution.2.2.2.2.1 "Q4 2010" 4 2010 (by decide) (by decide),
   C6_date_format_resolution.2.2.2.2.2 "total gibberish" (by decide) (by decide)⟩

/-- C7 counterexample: the claim fails for the fiscal-quarter notation.
The quarter regex is applied with `re.match` before the `as of` phrase is
removed, so `as of Q2 2023` never reaches the quarter branch, falls
through the battery and yields Unset, while `Q2 2023` alone yields
2023-06-30. -/
theorem C7_counterexample :
    pDate (.vStr "as of Q2 2023") = .ok none ∧
    pDate (.vStr "Q2 2023") = .ok (some ⟨2023, 6, 30⟩) :=
  ⟨rfl, rfl⟩

/-- C7 amended: the leading `as of` phrase is stripped before the
`strptime` battery only.  For every surrounding-whitespace-free string
`s` that contains no `as of` occurrence, does not match the quarter
prefix, and is matched by one of the six battery formats, prefixing
`"as of "` leaves the result unchanged; the fiscal-quarter notation is
excluded because the quarter check runs before the stripping. -/
theorem C7_amended_as_of_battery_only :
    ∀ (s : String) (d : PyDate),
      lstrip s.data = s.data → rstrip s.data = s.data →
      asOfSub false s.data = s.data →
      quarterHead s.data = none →
      battery s.data = some d →
      pDate (.vStr ("as of " ++ s)) = .ok (some d) ∧
      pDate (.vStr s) = .ok (some d) := by
  intro s d hl hr hsub hq hb
  have hps : pyStripL s.data = s.data := by rw [pyStripL, hl, hr]
  have hsd : s ≠ "" := by
    intro he; subst he
    rw [show ("" : String).data = [] from rfl, battery_nil] at hb
    simp at hb
  have hdne : s.data ≠ [] := by
    intro h0
    apply hsd
    cases s with
    | mk l => simp only at h0; rw [h0]
  constructor
  · have hig : ("as of " ++ s) ≠ "" := by
      intro he
      have hd := congrArg String.data he
      rw [show ("as of " ++ s).data = 'a' :: 's' :: ' ' :: 'o' :: 'f' :: ' ' :: s.data
        from rfl] at hd
      simp at hd
    rw [pDate, if_neg hig]
    rw [show ("as of " ++ s).data = 'a' :: 's' :: ' ' :: 'o' :: 'f' :: ' ' :: s.data
      from rfl]
    have hstrip : pyStripL ('a' :: 's' :: ' ' :: 'o' :: 'f' :: ' ' :: s.data) =
        'a' :: 's' :: ' ' :: 'o' :: 'f' :: ' ' :: s.data := by
      rw [pyStripL, lstrip_cons_of_nonspace 'a' _ rfl]
      exact rstrip_append ['a', 's', ' ', 'o', 'f', ' '] s.data hr hdne
    rw [pDateCore, hstrip]
    show Except.ok (battery (pyStripL
      (asOfSub false ('a' :: 's' :: ' ' :: 'o' :: 'f' :: ' ' :: s.data)))) = .ok (some d)
    rw [show asOfSub false ('a' :: 's' :: ' ' :: 'o' :: 'f' :: ' ' :: s.data)
        = asOfSub true (' ' :: s.data) from rfl]
    rw [asOfSub_cons_of ' ' s.data true rfl]
    rw [show isWordCh ' ' = false from rfl, hsub]
    rw [show pyStripL (' ' :: s.data) = rstrip (lstrip s.data) from by
      rw [pyStripL, lstrip_cons_of_space ' ' _ rfl]]
    rw [hl, hr, hb]
  · rw [pDate, if_neg hsd, pDateCore, hps, hq]
    show Except.ok (battery (pyStripL (asOfSub false s.data))) = .ok (some d)
    rw [hsub, hps, hb]

/-- C7 witness: the amended equivalence applied to the ISO date
`2023-06-30`. -/
theorem C7_witness :
    pDate (.vStr ("as of " ++ "2023-06-30")) = .ok (some ⟨2023, 6, 30⟩) ∧
    pDate (.vStr "2023-06-30") = .ok (some ⟨2023, 6, 30⟩) :=
  C7_amended_as_of_battery_only "2023-06-30" ⟨2023, 6, 30⟩
    (by decide) (by decide) (by decide) (by decide) (by decide)

/-- C2 counterexample: a non-matching raw enum string does not resolve to
Unset.  With the five required fields valid, the value `equity` for
`Tipologia_Strumento` (whose member value is `Equity`) makes the whole
record validation raise, because pydantic rejects a string that is
neither a member value nor `None`. -/
theorem C2_counterexample :
    validateRecord { sampleOk with tipologiaStrumento := some (.str "equity") }
      = .error () := rfl

/-- C2 amended: enum resolution is exact and case-sensitive.  A raw
string equal to a member value resolves to that member, and absent or
null input resolves to Unset; but a present non-matching string raises a
validation error for the record instead of resolving to Unset. -/
theorem C2_amended_enum_exact_or_error :
    (∀ (vals : List String) (s : String), s ∈ vals →
      optEnum vals (some (.str s)) = .ok (some s)) ∧
    (∀ (vals : List String) (s : String), s ∉ vals →
      optEnum vals (some (.str s)) = .error ()) ∧
    (∀ vals : List String,
      optEnum vals none = .ok none ∧ optEnum vals (some .null) = .ok none) ∧
    (validateRecord { sampleOk with tipologiaStrumento := some (.str "Equity") }).map
        (fun e => e.tipologiaStrumento) = .ok (some "Equity") ∧
    (validateRecord sampleOk).map (fun e => e.tipologiaStrumento) = .ok none ∧
    validateRecord { sampleOk with tipologiaStrumento := some (.str "equity") }
      = .error () := by
  refine ⟨?_, ?_, fun vals => ⟨rfl, rfl⟩, rfl, rfl, rfl⟩
  · intro vals s h
    rw [optEnum, if_pos h]
  · intro vals s h
    rw [optEnum, if_neg h]

/-- C2 witness: the general clauses applied to the instrument-strategy
enumeration at the member value `Equity` and the non-member `equity`. -/
theorem C2_witness :
    optEnum instrumentStrategyValues (some (.str "Equity")) = .ok (some "Equity") ∧
    optEnum instrumentStrategyValues (some (.str "equity")) = .error () :=
  ⟨C2_amended_enum_exact_or_error.1 instrumentStrategyValues "Equity" (by decide),
   C2_amended_enum_exact_or_error.2.1 instrumentStrategyValues "equity" (by decide)⟩

/-- C3 counterexample: the required fields are not exactly the NAV date
and the three identity strings.  A record carrying a valid NAV date,
`OICR`, `OICR_FONDO_TARGET` and `Nome_Fondo_Target` but no
`FONDO_TARGET_ASSET` (declared without a default) still fails
validation, while the claim predicts it succeeds. -/
theorem C3_counterexample :
    validateRecord { sampleOk with fondoTargetAsset := none } = .error () ∧
    exOk (validateRecord sampleOk) = true := ⟨rfl, rfl⟩

/-- C3 amended: validation requires exactly the reference NAV date and
the FOUR identity strings declared without a default (`FONDO_TARGET_ASSET`,
`OICR_FONDO_TARGET`, `OICR`, `Nome_Fondo_Target`): a record with exactly
these five present validates, absence of any one of them fails, and an
ordinary coercion failure on an optional decimal or date field degrades
to Unset without raising (enum mismatches and malformed suffix strings,
however, raise — see C2 and C1). -/
theorem C3_amended_five_required_fields :
    exOk (validateRecord sampleOk) = true ∧
    validateRecord { sampleOk with navDate := none } = .error () ∧
    validateRecord { sampleOk with fondoTargetAsset := none } = .error () ∧
    validateRecord { sampleOk with oicrFondoTarget := none } = .error () ∧
    validateRecord { sampleOk with oicr := none } = .error () ∧
    validateRecord { sampleOk with nomeFondoTarget := none } = .error () ∧
    (validateRecord { sampleOk with tvpi := some (.str "not a number") }).map
        (fun e => e.tvpi) = .ok none ∧
    (validateRecord { sampleOk with exitDate := some (.str "sometime soon") }).map
        (fun e => e.exitDate) = .ok none :=
  ⟨rfl, rfl, rfl, rfl, rfl, rfl, rfl, rfl⟩

/-- C4 counterexample: batch failure is not isolated at record
granularity.  In a single document whose batch holds three records with
the middle one missing a required identity field, the whole
`FundExposureBatch` parse raises, the per-document try/except drops the
document, and the output holds zero rows instead of the claimed two. -/
theorem C4_counterexample :
    exOk (validateRecord sampleOk) = true ∧
    validateRecord sampleMissingId = .error () ∧
    fieldMatching [[sampleOk, sampleMissingId, sampleOk]] = [] :=
  ⟨rfl, rfl, rfl⟩

/-- C4 amended: failure isolation happens at document granularity.  One
invalid record fails its whole batch, and a document whose batch fails is
skipped while every sibling document is processed unchanged. -/
theorem C4_amended_document_isolation :
    (∀ (pre post : List RawRecord) (r : RawRecord),
      validateRecord r = .error () →
      validateBatch (pre ++ r :: post) = .error ()) ∧
    (∀ (docs1 docs2 : List (List RawRecord)) (bad : List RawRecord),
      validateBatch bad = .error () →
      fieldMatching (docs1 ++ bad :: docs2) = fieldMatching docs1 ++ fieldMatching docs2) := by
  constructor
  · intro pre post r hr
    exact mapMExcept_error validateRecord r hr pre post
  · intro docs1 docs2 bad h
    rw [fieldMatching, List.filterMap_append, List.filterMap_cons]
    rw [h]
    show (List.filterMap (fun d => (validateBatch d).toOption) docs1)
        ++ List.filterMap (fun d => (validateBatch d).toOption) docs2
        = fieldMatching docs1 ++ fieldMatching docs2
    rw [fieldMatching, fieldMatching]

/-- C4 witness: the batch-abort clause applied to a batch holding only
the invalid record, and the document-isolation clause applied to a
failing middle document between two valid documents. -/
theorem C4_witness :
    validateBatch ([] ++ sampleMissingId :: []) = .error () ∧
    fieldMatching ([[sampleOk]] ++ [sampleOk, sampleMissingId] :: [[sampleOk]])
      = fieldMatching [[sampleOk]] ++ fieldMatching [[sampleOk]] :=
  ⟨C4_amended_document_isolation.1 [] [] sampleMissingId rfl,
   C4_amended_document_isolation.2 [[sampleOk]] [[sampleOk]]
     [sampleOk, sampleMissingId] rfl⟩

/-- C8: flattening is total and reads the first snapshot only.  Every
flat row is keyed by the fixed column list in order; a column whose key
is present with a non-null value in the first snapshot takes that value;
otherwise the column takes the top-level value (so a null snapshot value
never overwrites); and for a record with an empty snapshot list and no
top-level snapshot-scoped keys every snapshot-scoped column is Unset, with
no exception anywhere. -/
theorem C8_flatten_total_first_snapshot :
    (∀ rec : List (String × JVal), (flattenRecord rec).map Prod.fst = COLUMNS) ∧
    (∀ (rec : List (String × JVal)) (k : String), k ∈ COLUMNS →
      hasKeyJ (firstSnap rec) k = true → isNullJ (getJ (firstSnap rec) k) = false →
      getJ (flattenRecord rec) k = getJ (firstSnap rec) k) ∧
    (∀ (rec : List (String × JVal)) (k : String), k ∈ COLUMNS →
      (hasKeyJ (firstSnap rec) k = false ∨ isNullJ (getJ (firstSnap rec) k) = true) →
      getJ (flattenRecord rec) k = getJ rec k) ∧
    (∀ (rec : List (String × JVal)) (k : String), k ∈ SNAPSHOT_COLUMNS →
      getJ rec "asset_snapshots" = JVal.arr [] →
      hasKeyJ rec k = false →
      getJ (flattenRecord rec) k = JVal.null) := by
  refine ⟨?_, ?_, ?_, ?_⟩
  · intro rec
    rw [flattenRecord, List.map_map]
    exact List.map_id COLUMNS
  · intro rec k hk h1 h2
    rw [flattenRecord_get rec k hk, if_pos (by rw [h1, h2]; rfl)]
  · intro rec k hk h
    rcases h with h1 | h1
    · rw [flattenRecord_get rec k hk, if_neg (by simp [h1])]
    · rw [flattenRecord_get rec k hk, if_neg (by simp [h1])]
  · intro rec k hk harr hkey
    have hc : k ∈ COLUMNS := snapshotColumns_subset k hk
    have hfs : firstSnap rec = [] := by
      unfold firstSnap; rw [harr]
    rw [flattenRecord_get rec k hc, hfs,
      if_neg (by rw [show hasKeyJ ([] : List (String × JVal)) k = false from rfl]; simp)]
    exact getJ_eq_null_of_not_hasKey rec k hkey

/-- C8 witness: the snapshot-overwrite, null-no-overwrite, top-level and
empty-snapshot clauses applied to two concrete dumped records. -/
theorem C8_witness :
    getJ (flattenRecord sampleRow) "EV" = JVal.num 5 ∧
    getJ (flattenRecord sampleRow) "Price" = getJ sampleRow "Price" ∧
    getJ (flattenRecord sampleRow) "NAV_Date" = getJ sampleRow "NAV_Date" ∧
    getJ (flattenRecord sampleRowEmpty) "EV" = JVal.null :=
  ⟨C8_flatten_total_first_snapshot.2.1 sampleRow "EV" (by decide) rfl rfl,
   C8_flatten_total_first_snapshot.2.2.1 sampleRow "Price" (by decide) (Or.inr rfl),
   C8_flatten_total_first_snapshot.2.2.1 sampleRow "NAV_Date" (by decide) (Or.inl rfl),
   C8_flatten_total_first_snapshot.2.2.2 sampleRowEmpty "EV" (by decide) rfl rfl⟩

/-- C9: the semantic column groups partition the fixed projection.  The
concatenation of the group column lists in group order equals `COLUMNS`,
the columns are pairwise distinct, membership in some group characterizes
membership in `COLUMNS`, the groups are pairwise disjoint, and every
column belongs to exactly one group. -/
theorem C9_column_groups_partition :
    (COLUMN_GROUPS.map Prod.snd).flatten = COLUMNS ∧
    COLUMNS.Nodup ∧
    (∀ c : String, c ∈ COLUMNS ↔ ∃ g ∈ COLUMN_GROUPS, c ∈ g.2) ∧
    List.Pairwise (fun g1 g2 => ∀ c ∈ g1.2, c ∉ g2.2) COLUMN_GROUPS ∧
    (∀ c ∈ COLUMNS, COLUMN_GROUPS.countP (fun g => decide (c ∈ g.2)) = 1) := by
  have h1 : (COLUMN_GROUPS.map Prod.snd).flatten = COLUMNS := rfl
  refine ⟨h1, by decide, ?_, by decide, by decide⟩
  intro c
  rw [← h1]
  simp only [List.mem_flatten, List.mem_map, Prod.exists]
  constructor
  · rintro ⟨l, ⟨a, b, hab, hbl⟩, hcl⟩
    exact ⟨a, b, hab, by rwa [hbl]⟩
  · rintro ⟨a, b, hab, hcb⟩
    exact ⟨b, ⟨a, b, hab, rfl⟩, hcb⟩

/-- C9 witness: group membership and the exactly-one-group count for the
column `NAV_Date`. -/
theorem C9_witness :
    ("NAV_Date" ∈ COLUMNS ↔ ∃ g ∈ COLUMN_GROUPS, "NAV_Date" ∈ g.2) ∧
    COLUMN_GROUPS.countP (fun g => decide ("NAV_Date" ∈ g.2)) = 1 :=
  ⟨C9_column_groups_partition.2.2.1 "NAV_Date",
   C9_column_groups_partition.2.2.2.2 "NAV_Date" (by decide)⟩

end FinExtract
